import Mathlib

/-!
Verification of the roommate task-rotation and reporting engine.

The repository ships two implementation variants of the persistence layer
(`database.js`: an SQLite-backed variant and a JSON-file variant) and two
server files embedding the rotation logic.  Pure logic is embedded directly;
stateful database operations are embedded as explicit state passing.  The
wall clock (current month/year, completion and generation timestamps) is
passed explicitly as arguments.

The file is organised as definitions first (translated from the source),
followed by the theorems.
-/

namespace Rotation

/-- Source: `const ROOMMATES = ['deepanshu', 'sonu', 'sachin', 'sintu']`. -/
def ROOMMATES : List String := ["deepanshu", "sonu", "sachin", "sintu"]

/-- Source (first server variant):
`const TASKS = ['Kitchen Cleaning', 'Bathroom Cleaning', 'Hall Sweeping', 'Trash Removal']`. -/
def TASKS : List String :=
  ["Kitchen Cleaning", "Bathroom Cleaning", "Hall Sweeping", "Trash Removal"]

/-- Source (second server variant): `const TASKS = ['Kachra Fekna', 'Pani Lana']`. -/
def TASKS2 : List String := ["Kachra Fekna", "Pani Lana"]

/-- The body of `calculateMonthlyAssignments`, shared verbatim by both server
variants (they differ only in the `TASKS` constant):
```
const seed = (year * 12) + month;
const assignments = {};
TASKS.forEach((task, taskIndex) => {
    const roommateIndex = (seed + taskIndex) % ROOMMATES.length;
    assignments[task] = ROOMMATES[roommateIndex];
});
```
The resulting object is modelled as the association list in catalog order. -/
def calculateMonthlyAssignmentsWith (tasks roommates : List String)
    (month year : Nat) : List (String × String) :=
  let seed := year * 12 + month
  tasks.enum.map (fun p => (p.2, roommates.getD ((seed + p.1) % roommates.length) ""))

/-- Function `calculateMonthlyAssignments` of the first server variant (4-entry catalog). -/
def calculateMonthlyAssignments (month year : Nat) : List (String × String) :=
  calculateMonthlyAssignmentsWith TASKS ROOMMATES month year

end Rotation

namespace Sqlite

/-- One row of the `users` table, restricted to the columns the modelled
operations consult (`SELECT id, username FROM users` and the LEFT JOIN of
`getAllUsersStatus`); `mobile_number`, `password_hash` and `created_at` are
never read by them. -/
structure UserRow where
  id : Nat
  username : String
deriving Repr, DecidableEq

/-- One row of the `tasks` table (SQLite variant of `database.js`).
`completed_at` is a DATETIME, modelled as an abstract timestamp. -/
structure Task where
  id : Nat
  name : String
  assigned_to : String
  month : Nat
  year : Nat
  completed : Bool
  completed_at : Option Nat
deriving Repr, DecidableEq

/-- One row of the `task_history` table (the `timestamp` column defaults to
the insertion time and is not consulted by any claim; it is omitted). -/
structure HistoryEntry where
  task_id : Nat
  username : String
  action : String
deriving Repr, DecidableEq

/-- One row of the `monthly_reports` table.  `report_data` is the serialized
JSON `{tasks: [{name, completed, completedAt}...], generatedAt}`, modelled
structurally in `report_tasks`; `created_at`/`generatedAt` are modelled by
the abstract timestamp `generated_at`. -/
structure Report where
  user_id : Nat
  username : String
  month : Nat
  year : Nat
  tasks_assigned : Nat
  tasks_completed : Nat
  completion_percentage : Int
  report_tasks : List (String × Bool × Option Nat)
  generated_at : Nat
deriving Repr, DecidableEq

/-- The mutable database state of the SQLite variant.  `next_id` models the
AUTOINCREMENT counter of the `tasks` table. -/
structure DBState where
  users : List UserRow
  tasks : List Task
  task_history : List HistoryEntry
  monthly_reports : List Report
  next_id : Nat
deriving Repr, DecidableEq

/-- The WHERE clause of `completeTask`'s UPDATE:
`WHERE name = ? AND month = ? AND year = ? AND assigned_to = ?`. -/
def taskMatch (taskName username : String) (month year : Nat) (t : Task) : Bool :=
  t.name = taskName && t.month = month && t.year = year && t.assigned_to = username

/-- The SET clause of `completeTask`'s UPDATE, applied to one row:
`SET completed = 1, completed_at = CURRENT_TIMESTAMP` on rows matched by the
WHERE clause, identity elsewhere.  Note the WHERE clause does not test the
`completed` column. -/
def completeUpdate (taskName username : String) (month year now : Nat)
    (t : Task) : Task :=
  if taskMatch taskName username month year t then
    { t with completed := true, completed_at := some now }
  else t

/-- Operation `completeTask(taskName, username, month, year)` (SQLite variant):
```
UPDATE tasks SET completed = 1, completed_at = CURRENT_TIMESTAMP
 WHERE name = ? AND month = ? AND year = ? AND assigned_to = ?
```
then, if `this.changes === 0`, rejects with
'Task not found or not assigned to you'; otherwise looks the task id up by
`SELECT id FROM tasks WHERE name = ? AND month = ? AND year = ?` and appends
a `task_history` row `(task_id, username, 'completed')`.  `now` is the
CURRENT_TIMESTAMP.  Returns the promise outcome together with the state
after the call. -/
def completeTask (s : DBState) (taskName username : String) (month year : Nat)
    (now : Nat) : Except String Unit × DBState :=
  let changes := (s.tasks.filter (taskMatch taskName username month year)).length
  if changes = 0 then
    (Except.error "Task not found or not assigned to you", s)
  else
    let tasks2 := s.tasks.map (completeUpdate taskName username month year now)
    match tasks2.find? (fun t => t.name = taskName && t.month = month && t.year = year) with
    | some task =>
        (Except.ok (),
         { s with tasks := tasks2,
                  task_history := s.task_history ++ [⟨task.id, username, "completed"⟩] })
    | none =>
        -- unreachable when changes ≠ 0: the JS code would crash reading
        -- `task.id` of `undefined`, with the UPDATE already applied
        (Except.error "task is undefined", { s with tasks := tasks2 })

/-- One `stmt.run(taskName, username, month, year)` of `createMonthlyTasks`,
i.e. `INSERT OR IGNORE INTO tasks (name, assigned_to, month, year)`: the
UNIQUE(name, month, year) constraint makes the insert a no-op when a row
with the same key already exists; otherwise a fresh row is appended with
`completed` defaulted to 0 and a fresh AUTOINCREMENT id. -/
def insertOrIgnoreTask (s : DBState) (taskName username : String)
    (month year : Nat) : DBState :=
  if s.tasks.any (fun t => t.name = taskName && t.month = month && t.year = year) then s
  else
    { s with tasks := s.tasks ++ [⟨s.next_id, taskName, username, month, year, false, none⟩],
             next_id := s.next_id + 1 }

/-- Operation `createMonthlyTasks(month, year, assignments)` (SQLite variant): one
`INSERT OR IGNORE` per `Object.entries(assignments)` pair, in order. -/
def createMonthlyTasks (s : DBState) (month year : Nat)
    (assignments : List (String × String)) : DBState :=
  assignments.foldl (fun acc p => insertOrIgnoreTask acc p.1 p.2 month year) s

/-- Operation `getCurrentMonthTasks()`:
`SELECT * FROM tasks WHERE month = ? AND year = ?` for the wall-clock
month/year, which the embedding receives as arguments. -/
def getCurrentMonthTasks (s : DBState) (month year : Nat) : List Task :=
  s.tasks.filter (fun t => t.month = month && t.year = year)

/-- Key clash predicate for the UNIQUE(name, month, year) constraint of the
`tasks` table. -/
def keyClash (a b : Task) : Bool :=
  a.name = b.name && a.month = b.month && a.year = b.year

/-- The UNIQUE(name, month, year) invariant of the `tasks` table: no two rows
share a key. -/
def tasksKeyUnique : List Task → Bool
  | [] => true
  | t :: ts => (ts.all fun u => !(keyClash t u)) && tasksKeyUnique ts

/-- Statement `INSERT OR REPLACE INTO monthly_reports` under the
UNIQUE(user_id, month, year) constraint: any row with the same key is
deleted and the fresh row inserted. -/
def insertOrReplaceReport (reports : List Report) (r : Report) : List Report :=
  (reports.filter fun x =>
    !(x.user_id = r.user_id && x.month = r.month && x.year = r.year)) ++ [r]

/-- Operation `generateMonthlyReport(userId, username, month, year)` (SQLite variant):
```
SELECT * FROM tasks WHERE assigned_to = ? AND month = ? AND year = ?
tasksAssigned = tasks.length
tasksCompleted = tasks.filter(t => t.completed).length
completionPercentage = tasksAssigned > 0
  ? Math.round((tasksCompleted / tasksAssigned) * 100) : 0
INSERT OR REPLACE INTO monthly_reports ...
```
For the nonnegative arguments arising here, JavaScript's `Math.round`
(round half towards positive infinity) agrees with Mathlib's `round`.
`now` models `generatedAt`/`created_at`. -/
def generateMonthlyReport (s : DBState) (userId : Nat) (username : String)
    (month year now : Nat) : Report × DBState :=
  let tasks := s.tasks.filter fun t =>
    t.assigned_to = username && t.month = month && t.year = year
  let tasksAssigned := tasks.length
  let tasksCompleted := (tasks.filter fun t => t.completed).length
  let completionPercentage : Int :=
    if tasksAssigned > 0 then round (((tasksCompleted : ℚ) / tasksAssigned) * 100) else 0
  let r : Report :=
    ⟨userId, username, month, year, tasksAssigned, tasksCompleted, completionPercentage,
     tasks.map (fun t => (t.name, t.completed, t.completed_at)), now⟩
  (r, { s with monthly_reports := insertOrReplaceReport s.monthly_reports r })

/-- The loop body of `generateAllMonthlyReports` (SQLite variant) over the
rows of `SELECT id, username FROM users`:
```
for (const user of users) {
  try { reports.push(await generateMonthlyReport(...)); }
  catch (error) { console.error(...); }
}
```
The only failure source in `generateMonthlyReport` is the storage backend;
`err` models which users' generation the backend fails on (the caught,
logged and skipped branch). -/
def generateAllMonthlyReportsGo (err : UserRow → Option String)
    (month year now : Nat) : DBState → List UserRow → List Report × DBState
  | s, [] => ([], s)
  | s, u :: us =>
      match err u with
      | some _ => generateAllMonthlyReportsGo err month year now s us
      | none =>
          let p := generateMonthlyReport s u.id u.username month year now
          let rest := generateAllMonthlyReportsGo err month year now p.2 us
          (p.1 :: rest.1, rest.2)

/-- Operation `generateAllMonthlyReports(month, year)` (SQLite variant), parametrised
by the storage-failure oracle `err`. -/
def generateAllMonthlyReportsWith (err : UserRow → Option String) (s : DBState)
    (month year now : Nat) : List Report × DBState :=
  generateAllMonthlyReportsGo err month year now s s.users

/-- One element of the sequence `getAllUsersStatus` resolves with:
`{username, tasks: [{name, completed, completedAt}...]}`. -/
structure UserStatus where
  username : String
  tasks : List (String × Bool × Option Nat)
deriving Repr, DecidableEq

/-- The rows one user contributes to the LEFT JOIN of `getAllUsersStatus`:
one row per task with `t.assigned_to = u.username AND t.month = ? AND
t.year = ?`, or a single row with NULL task columns when the user has no
matching task. -/
def userBlock (tasks : List Task) (month year : Nat) (u : UserRow) :
    List (String × Option (String × Bool × Option Nat)) :=
  match tasks.filter (fun t =>
      t.assigned_to = u.username && t.month = month && t.year = year) with
  | [] => [(u.username, none)]
  | ts => ts.map fun t => (u.username, some (t.name, t.completed, t.completed_at))

/-- The row set of `getAllUsersStatus`'s query:
```
SELECT u.username, t.name as task_name, t.completed, t.completed_at
FROM users u
LEFT JOIN tasks t ON t.assigned_to = u.username AND t.month = ? AND t.year = ?
ORDER BY u.username
```
-/
def statusRows (users : List UserRow) (tasks : List Task) (month year : Nat) :
    List (String × Option (String × Bool × Option Nat)) :=
  (users.mergeSort fun a b => a.username ≤ b.username).flatMap
    (userBlock tasks month year)

/-- The grouping step of `getAllUsersStatus`:
```
if (!userStatus[row.username]) userStatus[row.username] = {username, tasks: []};
if (row.task_name) userStatus[row.username].tasks.push({...});
```
applied to one row of the accumulated map, kept as an association list in
insertion order (the order `Object.values` returns). -/
def pushRow (acc : List UserStatus) (row : String × Option (String × Bool × Option Nat)) :
    List UserStatus :=
  if acc.any (fun e => e.username = row.1) then
    match row.2 with
    | some ti => acc.map fun e =>
        if e.username = row.1 then { e with tasks := e.tasks ++ [ti] } else e
    | none => acc
  else
    match row.2 with
    | some ti => acc ++ [⟨row.1, [ti]⟩]
    | none => acc ++ [⟨row.1, []⟩]

/-- Operation `getAllUsersStatus(month, year)` (SQLite variant): the grouping fold over
the query's rows, resolving with `Object.values(userStatus)`. -/
def getAllUsersStatus (s : DBState) (month year : Nat) : List UserStatus :=
  (statusRows s.users s.tasks month year).foldl pushRow []

end Sqlite

namespace JsonDB

/-- One element of `data.users` in the JSON-file variant (`password_hash`
is never consulted by the modelled operations). -/
structure User where
  id : Nat
  username : String
deriving Repr, DecidableEq

/-- One element of `data.tasks` in the JSON-file variant of `database.js`.
Completion state lives in the `status` string ('pending'/'completed');
`completed_at` is an ISO timestamp, modelled abstractly. -/
structure Task where
  id : Nat
  name : String
  assigned_to : String
  month : Nat
  year : Nat
  status : String
  completed_at : Option Nat
deriving Repr, DecidableEq

/-- One element of `data.monthly_reports` in the JSON-file variant.  The
record's `id: Date.now() + Math.random()`, a wall-clock artifact never read
back, is not modelled; `report_data` (the serialized `userTasks`) is kept
structurally in `report_tasks`; `created_at` is the abstract timestamp
`now`. Note `completion_percentage` is an unrounded number. -/
structure Report where
  user_id : Nat
  username : String
  month : Nat
  year : Nat
  assigned_tasks : Nat
  completed_tasks : Nat
  completion_percentage : ℚ
  report_tasks : List Task
  created_at : Nat
deriving Repr, DecidableEq

/-- Step `data.tasks.find(t => t.id === parseInt(taskId))` followed by the
in-place mutation `task.status = 'completed'; task.completed_at = ...`:
marks the first task with the given id, `none` when no task has that id. -/
def markFirst (taskId now : Nat) : List Task → Option (List Task)
  | [] => none
  | t :: ts =>
      if t.id = taskId then
        some ({ t with status := "completed", completed_at := some now } :: ts)
      else (markFirst taskId now ts).map (t :: ·)

/-- Operation `completeTask(taskId)` (JSON-file variant):
```
const task = data.tasks.find(t => t.id === parseInt(taskId));
if (task) { task.status = 'completed'; task.completed_at = ...; writeDB(data); return true; }
return false;
```
No actor is passed and no ownership check is made; the `/api/tasks/complete`
route of the matching server file forwards only `taskId` from the request
body, ignoring the session user. -/
def completeTask (tasks : List Task) (taskId now : Nat) : Bool × List Task :=
  match markFirst taskId now tasks with
  | some ts => (true, ts)
  | none => (false, tasks)

/-- Operation `generateAllMonthlyReports(month, year)` (JSON-file variant):
```
const reports = data.users.map(user => {
  const userTasks = data.tasks.filter(...);
  const assignedCount = userTasks.length;
  const completedCount = userTasks.filter(t => t.status === 'completed').length;
  const completionRate = assignedCount > 0 ? (completedCount / assignedCount) * 100 : 100;
  const report = {...};
  data.monthly_reports.push(report);
  return report;
});
```
Every call appends one fresh report per user to `data.monthly_reports`;
nothing is replaced.  Returns the new reports and the updated report table. -/
def generateAllMonthlyReports (users : List User) (tasks : List Task)
    (monthly_reports : List Report) (month year now : Nat) :
    List Report × List Report :=
  let reports := users.map fun user =>
    let userTasks := tasks.filter fun t =>
      t.assigned_to = user.username && t.month = month && t.year = year
    let assignedCount := userTasks.length
    let completedCount := (userTasks.filter fun t => t.status = "completed").length
    let completionRate : ℚ :=
      if assignedCount > 0 then ((completedCount : ℚ) / assignedCount) * 100 else 100
    (⟨user.id, user.username, month, year, assignedCount, completedCount,
      completionRate, userTasks, now⟩ : Report)
  (reports, monthly_reports ++ reports)

end JsonDB

namespace Server

/-- Operation `ensureMonthlyTasks()` of the server files (identical in both), against
the SQLite store, with the wall-clock month/year passed explicitly:
```
const existingTasks = await getCurrentMonthTasks();
if (existingTasks.length === 0) {
  const assignments = calculateMonthlyAssignments(month, year);
  await createMonthlyTasks(month, year, assignments);
}
```
-/
def ensureMonthlyTasks (s : Sqlite.DBState) (month year : Nat) : Sqlite.DBState :=
  if (Sqlite.getCurrentMonthTasks s month year).length = 0 then
    Sqlite.createMonthlyTasks s month year (Rotation.calculateMonthlyAssignments month year)
  else s

end Server

namespace Rotation

theorem calculateMonthlyAssignments_unfold (month year : Nat) :
    calculateMonthlyAssignments month year =
      [("Kitchen Cleaning", ROOMMATES.getD ((year * 12 + month + 0) % 4) ""),
       ("Bathroom Cleaning", ROOMMATES.getD ((year * 12 + month + 1) % 4) ""),
       ("Hall Sweeping", ROOMMATES.getD ((year * 12 + month + 2) % 4) ""),
       ("Trash Removal", ROOMMATES.getD ((year * 12 + month + 3) % 4) "")] := rfl

/-- C3: `calculateMonthlyAssignments` is a pure deterministic function of
(month, year): two calls with identical arguments yield identical mappings,
computed as seed = year*12 + month with the task at catalog index i assigned
to roster[(seed + i) mod |roster|]; for month=1, year=2026 the seed is 24313,
index 0 goes to roster[24313 % 4] = roster[1] = sonu and index 1 to
roster[24314 % 4] = roster[2] = sachin. -/
theorem calculateMonthlyAssignments_deterministic_spec :
    (∀ month year, calculateMonthlyAssignments month year =
        calculateMonthlyAssignments month year) ∧
    (∀ month year i, (calculateMonthlyAssignments month year).get? i =
        (TASKS.get? i).map (fun t =>
          (t, ROOMMATES.getD ((year * 12 + month + i) % ROOMMATES.length) ""))) ∧
    2026 * 12 + 1 = 24313 ∧
    ROOMMATES.getD (24313 % 4) "" = "sonu" ∧
    ROOMMATES.getD (24314 % 4) "" = "sachin" ∧
    ((calculateMonthlyAssignments 1 2026).get? 0).map Prod.snd = some "sonu" ∧
    ((calculateMonthlyAssignments 1 2026).get? 1).map Prod.snd = some "sachin" := by
  refine ⟨fun _ _ => rfl, ?_, by norm_num, by decide, by decide, by decide, by decide⟩
  intro month year i
  rw [calculateMonthlyAssignments_unfold]
  rcases i with _ | _ | _ | _ | i
  · rfl
  · rfl
  · rfl
  · rfl
  · simp [TASKS, List.get?]

/-- C10: since roster and catalog both have exactly 4 entries and assignment
indices are the consecutive values (seed+0..seed+3) mod 4, every month's 4
tasks go to 4 pairwise-distinct roommates: the assignee list is duplicate-free
and is a permutation of the roster, so each roommate gets exactly one task. -/
theorem calculateMonthlyAssignments_covers_roster :
    ∀ month year,
      ((calculateMonthlyAssignments month year).map Prod.snd).Nodup ∧
      ((calculateMonthlyAssignments month year).map Prod.snd).Perm ROOMMATES := by
  intro month year
  have h : (calculateMonthlyAssignments month year).map Prod.snd =
      [ROOMMATES.getD ((year * 12 + month + 0) % 4) "",
       ROOMMATES.getD ((year * 12 + month + 1) % 4) "",
       ROOMMATES.getD ((year * 12 + month + 2) % 4) "",
       ROOMMATES.getD ((year * 12 + month + 3) % 4) ""] := by
    rw [calculateMonthlyAssignments_unfold]; rfl
  have e0 : (year * 12 + month + 0) % 4 = (year * 12 + month) % 4 := by omega
  have e1 : (year * 12 + month + 1) % 4 = ((year * 12 + month) % 4 + 1) % 4 := by omega
  have e2 : (year * 12 + month + 2) % 4 = ((year * 12 + month) % 4 + 2) % 4 := by omega
  have e3 : (year * 12 + month + 3) % 4 = ((year * 12 + month) % 4 + 3) % 4 := by omega
  rw [h, e0, e1, e2, e3]
  obtain ⟨k, hk, hkeq⟩ : ∃ k, k < 4 ∧ (year * 12 + month) % 4 = k :=
    ⟨_, by omega, rfl⟩
  rw [hkeq]
  interval_cases k
  · exact ⟨by decide, by decide⟩
  · exact ⟨by decide, by decide⟩
  · exact ⟨by decide, by decide⟩
  · exact ⟨by decide, by decide⟩

end Rotation

/-- C1 (amended): in the SQLite variant, when every task keyed
(name, month, year) is assigned to A (the uniqueness invariant gives at most
one such task) and B ≠ A, `completeTask` as actor B rejects with the
not-found-or-not-owned error and returns the store entirely unchanged. -/
theorem completeTask_wrong_actor (s : Sqlite.DBState) (n A B : String)
    (m y now : Nat)
    (hA : ∀ t ∈ s.tasks, t.name = n → t.month = m → t.year = y → t.assigned_to = A)
    (hBA : B ≠ A) :
    (Sqlite.completeTask s n B m y now).1 =
        Except.error "Task not found or not assigned to you" ∧
    (Sqlite.completeTask s n B m y now).2 = s := by
  have hfil : s.tasks.filter (Sqlite.taskMatch n B m y) = [] := by
    rw [List.filter_eq_nil_iff]
    intro t ht hmatch
    simp only [Sqlite.taskMatch, Bool.and_eq_true, decide_eq_true_eq] at hmatch
    obtain ⟨⟨⟨h1, h2⟩, h3⟩, h4⟩ := hmatch
    exact hBA (h4 ▸ hA t ht h1 h2 h3)
  unfold Sqlite.completeTask
  rw [hfil]
  exact ⟨rfl, rfl⟩

/-- Witness for C1's amended theorem at a concrete store: a task assigned to
deepanshu cannot be completed by sonu. -/
theorem completeTask_wrong_actor_witness :
    (Sqlite.completeTask
        ⟨[], [⟨1, "Kitchen Cleaning", "deepanshu", 1, 2026, false, none⟩], [], [], 2⟩
        "Kitchen Cleaning" "sonu" 1 2026 77).1 =
      Except.error "Task not found or not assigned to you" ∧
    (Sqlite.completeTask
        ⟨[], [⟨1, "Kitchen Cleaning", "deepanshu", 1, 2026, false, none⟩], [], [], 2⟩
        "Kitchen Cleaning" "sonu" 1 2026 77).2 =
      ⟨[], [⟨1, "Kitchen Cleaning", "deepanshu", 1, 2026, false, none⟩], [], [], 2⟩ :=
  completeTask_wrong_actor
    ⟨[], [⟨1, "Kitchen Cleaning", "deepanshu", 1, 2026, false, none⟩], [], [], 2⟩
    "Kitchen Cleaning" "deepanshu" "sonu" 1 2026 77
    (by decide) (by decide)

/-- C1 counterexample: in the JSON-file variant, completing task id 1 —
assigned to deepanshu — on behalf of the distinct logged-in user sonu does
not fail: `completeTask(1)` never consults the actor, returns `true`, and
flips the task to completed with a fresh timestamp, so the claim's required
NotFoundOrNotOwned failure and unchanged state are both violated. -/
theorem completeTask_json_ignores_actor_cex :
    ("sonu" : String) ≠ "deepanshu" ∧
    JsonDB.completeTask
        [⟨1, "Kitchen Cleaning", "deepanshu", 1, 2026, "pending", none⟩] 1 77 =
      (true, [⟨1, "Kitchen Cleaning", "deepanshu", 1, 2026, "completed", some 77⟩]) :=
  ⟨by decide, rfl⟩

/-- Helper: a row matched by `completeTask`'s WHERE clause still matches it
after the SET clause is applied (the update touches neither the key columns
nor `assigned_to`). -/
theorem taskMatch_completeUpdate (n u : String) (m y now : Nat) (t : Sqlite.Task)
    (h : Sqlite.taskMatch n u m y t = true) :
    Sqlite.taskMatch n u m y (Sqlite.completeUpdate n u m y now t) = true := by
  unfold Sqlite.completeUpdate
  rw [if_pos h]
  simpa [Sqlite.taskMatch] using h

/-- Helper: when some task row matches the WHERE clause, `completeTask`
resolves successfully, applies the SET clause to the task table, and appends
one history row. -/
theorem completeTask_success (s : Sqlite.DBState) (n u : String) (m y now : Nat)
    (h : ∃ t ∈ s.tasks, Sqlite.taskMatch n u m y t = true) :
    (Sqlite.completeTask s n u m y now).1 = Except.ok () ∧
    (Sqlite.completeTask s n u m y now).2.tasks =
      s.tasks.map (Sqlite.completeUpdate n u m y now) := by
  obtain ⟨t, ht, hm⟩ := h
  have hch : ¬ (s.tasks.filter (Sqlite.taskMatch n u m y)).length = 0 := by
    intro h0
    rw [List.length_eq_zero] at h0
    have : t ∈ s.tasks.filter (Sqlite.taskMatch n u m y) :=
      List.mem_filter.mpr ⟨ht, hm⟩
    rw [h0] at this
    exact absurd this (List.not_mem_nil t)
  have hpred : (fun t : Sqlite.Task =>
      t.name = n && t.month = m && t.year = y) (Sqlite.completeUpdate n u m y now t) = true := by
    have h2 := taskMatch_completeUpdate n u m y now t hm
    simp only [Sqlite.taskMatch, Bool.and_eq_true] at h2
    simp only [Bool.and_eq_true]
    exact h2.1
  have hsome : ((s.tasks.map (Sqlite.completeUpdate n u m y now)).find?
      (fun t => t.name = n && t.month = m && t.year = y)).isSome :=
    List.find?_isSome.mpr ⟨_, List.mem_map_of_mem _ ht, hpred⟩
  simp only [Sqlite.completeTask]
  rw [if_neg hch]
  cases hfind : (s.tasks.map (Sqlite.completeUpdate n u m y now)).find?
      (fun t => t.name = n && t.month = m && t.year = y) with
  | none => rw [hfind] at hsome; simp at hsome
  | some task => exact ⟨rfl, rfl⟩

/-- Helper: after the SET clause, a row that (still) matches the WHERE clause
carries `completed = 1` and the fresh timestamp. -/
theorem completeUpdate_sets (n u : String) (m y now : Nat) (t : Sqlite.Task)
    (h : Sqlite.taskMatch n u m y (Sqlite.completeUpdate n u m y now t) = true) :
    (Sqlite.completeUpdate n u m y now t).completed = true ∧
    (Sqlite.completeUpdate n u m y now t).completed_at = some now := by
  unfold Sqlite.completeUpdate at h ⊢
  by_cases hm : Sqlite.taskMatch n u m y t = true
  · rw [if_pos hm]
    exact ⟨rfl, rfl⟩
  · rw [if_neg hm] at h
    exact absurd h hm

/-- C2 counterexample: in the SQLite variant, sonu completes the pending
task at time 100, then calls `completeTask` again on the already-completed
task at time 200.  The second call does not fail: the UPDATE's WHERE clause
never tests the `completed` column, so it matches again, resolves with
success, and overwrites the stored completion timestamp (100 → 200),
contradicting both required behaviours of the claim. -/
theorem completeTask_second_completion_cex :
    (Sqlite.completeTask
        (⟨[], [⟨1, "Kitchen Cleaning", "sonu", 1, 2026, false, none⟩], [], [], 2⟩ :
          Sqlite.DBState)
        "Kitchen Cleaning" "sonu" 1 2026 100).2.tasks =
      [⟨1, "Kitchen Cleaning", "sonu", 1, 2026, true, some 100⟩] ∧
    (Sqlite.completeTask
        (Sqlite.completeTask
          (⟨[], [⟨1, "Kitchen Cleaning", "sonu", 1, 2026, false, none⟩], [], [], 2⟩ :
            Sqlite.DBState)
          "Kitchen Cleaning" "sonu" 1 2026 100).2
        "Kitchen Cleaning" "sonu" 1 2026 200).1 = Except.ok () ∧
    (Sqlite.completeTask
        (Sqlite.completeTask
          (⟨[], [⟨1, "Kitchen Cleaning", "sonu", 1, 2026, false, none⟩], [], [], 2⟩ :
            Sqlite.DBState)
          "Kitchen Cleaning" "sonu" 1 2026 100).2
        "Kitchen Cleaning" "sonu" 1 2026 200).2.tasks =
      [⟨1, "Kitchen Cleaning", "sonu", 1, 2026, true, some 200⟩] :=
  ⟨rfl, rfl, rfl⟩

/-- C2 (amended): completing a pending task as its rightful assignee
succeeds, but a second `completeTask` call on the same, now-completed task
succeeds again rather than failing — the WHERE clause does not test the
`completed` column — and it overwrites the stored completion timestamp with
the second call's current time (and appends a further history row). -/
theorem completeTask_reassignee_overwrites (s : Sqlite.DBState) (n u : String)
    (m y t1 t2 : Nat)
    (h : ∃ t ∈ s.tasks, Sqlite.taskMatch n u m y t = true) :
    (Sqlite.completeTask s n u m y t1).1 = Except.ok () ∧
    (Sqlite.completeTask (Sqlite.completeTask s n u m y t1).2 n u m y t2).1 =
      Except.ok () ∧
    ∀ t ∈ (Sqlite.completeTask (Sqlite.completeTask s n u m y t1).2
        n u m y t2).2.tasks,
      Sqlite.taskMatch n u m y t = true →
        t.completed = true ∧ t.completed_at = some t2 := by
  obtain ⟨t0, ht0, hm0⟩ := h
  have h1 := completeTask_success s n u m y t1 ⟨t0, ht0, hm0⟩
  have hmem1 : Sqlite.completeUpdate n u m y t1 t0 ∈
      (Sqlite.completeTask s n u m y t1).2.tasks := by
    rw [h1.2]
    exact List.mem_map_of_mem _ ht0
  have h2 := completeTask_success (Sqlite.completeTask s n u m y t1).2 n u m y t2
    ⟨_, hmem1, taskMatch_completeUpdate n u m y t1 t0 hm0⟩
  refine ⟨h1.1, h2.1, ?_⟩
  intro t htmem hmatch
  rw [h2.2] at htmem
  obtain ⟨t', _, rfl⟩ := List.mem_map.mp htmem
  exact completeUpdate_sets n u m y t2 t' hmatch

/-- Witness for C2's amended theorem at a concrete store. -/
theorem completeTask_reassignee_overwrites_witness :
    (Sqlite.completeTask
        (⟨[], [⟨1, "Hall Sweeping", "sachin", 1, 2026, false, none⟩], [], [], 2⟩ :
          Sqlite.DBState)
        "Hall Sweeping" "sachin" 1 2026 10).1 = Except.ok () ∧
    (Sqlite.completeTask
        (Sqlite.completeTask
          (⟨[], [⟨1, "Hall Sweeping", "sachin", 1, 2026, false, none⟩], [], [], 2⟩ :
            Sqlite.DBState)
          "Hall Sweeping" "sachin" 1 2026 10).2
        "Hall Sweeping" "sachin" 1 2026 20).1 = Except.ok () ∧
    ∀ t ∈ (Sqlite.completeTask
        (Sqlite.completeTask
          (⟨[], [⟨1, "Hall Sweeping", "sachin", 1, 2026, false, none⟩], [], [], 2⟩ :
            Sqlite.DBState)
          "Hall Sweeping" "sachin" 1 2026 10).2
        "Hall Sweeping" "sachin" 1 2026 20).2.tasks,
      Sqlite.taskMatch "Hall Sweeping" "sachin" 1 2026 t = true →
        t.completed = true ∧ t.completed_at = some 20 :=
  completeTask_reassignee_overwrites
    ⟨[], [⟨1, "Hall Sweeping", "sachin", 1, 2026, false, none⟩], [], [], 2⟩
    "Hall Sweeping" "sachin" 1 2026 10 20
    ⟨⟨1, "Hall Sweeping", "sachin", 1, 2026, false, none⟩, by decide, by decide⟩

/-- Helper: an `INSERT OR IGNORE` never removes task rows. -/
theorem mem_tasks_insertOrIgnoreTask (s : Sqlite.DBState) (a u : String)
    (m y : Nat) (t : Sqlite.Task) (ht : t ∈ s.tasks) :
    t ∈ (Sqlite.insertOrIgnoreTask s a u m y).tasks := by
  unfold Sqlite.insertOrIgnoreTask
  by_cases hg : (s.tasks.any fun t => t.name = a && t.month = m && t.year = y) = true
  · rw [if_pos hg]; exact ht
  · rw [if_neg hg]; exact List.mem_append_left _ ht

/-- Helper: `createMonthlyTasks` never removes task rows. -/
theorem mem_tasks_createMonthlyTasks (assignments : List (String × String))
    (s : Sqlite.DBState) (m y : Nat) (t : Sqlite.Task) (ht : t ∈ s.tasks) :
    t ∈ (Sqlite.createMonthlyTasks s m y assignments).tasks := by
  induction assignments generalizing s with
  | nil => exact ht
  | cons p rest ih =>
      exact ih (Sqlite.insertOrIgnoreTask s p.1 p.2 m y)
        (mem_tasks_insertOrIgnoreTask s p.1 p.2 m y t ht)

/-- Helper: on a store with no (month, year) task rows at all,
`createMonthlyTasks` with the (nonempty) computed assignments leaves the
store with at least one (month, year) row: the first `INSERT OR IGNORE`
finds no duplicate key and inserts. -/
theorem createMonthlyTasks_inserts (s : Sqlite.DBState) (m y : Nat)
    (assignments : List (String × String)) (hne : assignments ≠ [])
    (h : ∀ t ∈ s.tasks, ¬(t.month = m ∧ t.year = y)) :
    ∃ t ∈ (Sqlite.createMonthlyTasks s m y assignments).tasks,
      t.month = m ∧ t.year = y := by
  obtain ⟨⟨a, u⟩, rest, rfl⟩ := List.exists_cons_of_ne_nil hne
  have hg : (s.tasks.any fun t => t.name = a && t.month = m && t.year = y) = false := by
    rw [List.any_eq_false]
    intro t ht hmatch
    simp only [Bool.and_eq_true, decide_eq_true_eq] at hmatch
    exact h t ht ⟨hmatch.1.2, hmatch.2⟩
  have hins : Sqlite.insertOrIgnoreTask s a u m y =
      { s with tasks := s.tasks ++ [⟨s.next_id, a, u, m, y, false, none⟩],
               next_id := s.next_id + 1 } := by
    unfold Sqlite.insertOrIgnoreTask
    rw [if_neg (by rw [hg]; exact Bool.false_ne_true)]
  refine ⟨⟨s.next_id, a, u, m, y, false, none⟩, ?_, rfl, rfl⟩
  show _ ∈ (Sqlite.createMonthlyTasks (Sqlite.insertOrIgnoreTask s a u m y) m y rest).tasks
  apply mem_tasks_createMonthlyTasks
  rw [hins]
  exact List.mem_append_right _ (List.mem_singleton.mpr rfl)

/-- Helper: after `ensureMonthlyTasks`, the (month, year) slice of the task
table is nonempty (the computed catalog has 4 entries, so when the slice was
empty the first insert fills it). -/
theorem ensureMonthlyTasks_nonempty (s : Sqlite.DBState) (m y : Nat) :
    ¬ (Sqlite.getCurrentMonthTasks (Server.ensureMonthlyTasks s m y) m y).length = 0 := by
  unfold Server.ensureMonthlyTasks
  by_cases h : (Sqlite.getCurrentMonthTasks s m y).length = 0
  · rw [if_pos h]
    have hempty : ∀ t ∈ s.tasks, ¬(t.month = m ∧ t.year = y) := by
      intro t ht hmy
      have : t ∈ Sqlite.getCurrentMonthTasks s m y := by
        unfold Sqlite.getCurrentMonthTasks
        exact List.mem_filter.mpr ⟨ht, by simp [hmy.1, hmy.2]⟩
      rw [List.length_eq_zero] at h
      rw [h] at this
      exact absurd this (List.not_mem_nil t)
    have hne : Rotation.calculateMonthlyAssignments m y ≠ [] := by
      rw [Rotation.calculateMonthlyAssignments_unfold]
      simp
    obtain ⟨t, htmem, htm, hty⟩ :=
      createMonthlyTasks_inserts s m y (Rotation.calculateMonthlyAssignments m y) hne hempty
    intro hlen
    rw [List.length_eq_zero] at hlen
    have : t ∈ Sqlite.getCurrentMonthTasks
        (Sqlite.createMonthlyTasks s m y (Rotation.calculateMonthlyAssignments m y)) m y := by
      unfold Sqlite.getCurrentMonthTasks
      exact List.mem_filter.mpr ⟨htmem, by simp [htm, hty]⟩
    rw [hlen] at this
    exact absurd this (List.not_mem_nil t)
  · rw [if_neg h]
    exact h

/-- Helper: appending a row whose key clashes with no existing row preserves
the UNIQUE(name, month, year) invariant. -/
theorem tasksKeyUnique_append (l : List Sqlite.Task) (r : Sqlite.Task)
    (h1 : Sqlite.tasksKeyUnique l = true)
    (h2 : ∀ t ∈ l, Sqlite.keyClash t r = false) :
    Sqlite.tasksKeyUnique (l ++ [r]) = true := by
  induction l with
  | nil => rfl
  | cons x xs ih =>
      simp only [Sqlite.tasksKeyUnique, Bool.and_eq_true, List.all_eq_true] at h1 ⊢
      refine ⟨?_, ih h1.2 (fun t ht => h2 t (List.mem_cons_of_mem x ht))⟩
      intro u hu
      rcases List.mem_append.mp hu with hu | hu
      · exact h1.1 u hu
      · rw [List.mem_singleton.mp hu]
        rw [h2 x (List.mem_cons_self x xs)]
        rfl

/-- Helper: `INSERT OR IGNORE` preserves the UNIQUE(name, month, year)
invariant: it only inserts when no row with the same key exists. -/
theorem tasksKeyUnique_insertOrIgnoreTask (s : Sqlite.DBState) (a u : String)
    (m y : Nat) (h : Sqlite.tasksKeyUnique s.tasks = true) :
    Sqlite.tasksKeyUnique (Sqlite.insertOrIgnoreTask s a u m y).tasks = true := by
  unfold Sqlite.insertOrIgnoreTask
  by_cases hg : (s.tasks.any fun t => t.name = a && t.month = m && t.year = y) = true
  · rw [if_pos hg]; exact h
  · rw [if_neg hg]
    apply tasksKeyUnique_append _ _ h
    intro t ht
    have hall := List.any_eq_false.mp (Bool.not_eq_true _ ▸ hg) t ht
    rw [Bool.eq_false_iff]
    intro hclash
    apply hall
    simp only [Sqlite.keyClash, Bool.and_eq_true, decide_eq_true_eq] at hclash
    simp only [Bool.and_eq_true, decide_eq_true_eq]
    exact hclash

/-- Helper: `createMonthlyTasks` preserves the UNIQUE(name, month, year)
invariant. -/
theorem tasksKeyUnique_createMonthlyTasks (assignments : List (String × String))
    (s : Sqlite.DBState) (m y : Nat) (h : Sqlite.tasksKeyUnique s.tasks = true) :
    Sqlite.tasksKeyUnique (Sqlite.createMonthlyTasks s m y assignments).tasks = true := by
  induction assignments generalizing s with
  | nil => exact h
  | cons p rest ih =>
      exact ih (Sqlite.insertOrIgnoreTask s p.1 p.2 m y)
        (tasksKeyUnique_insertOrIgnoreTask s p.1 p.2 m y h)

/-- C4: for every (month, year), calling `ensureMonthlyTasks` twice leaves
exactly the same Task rows as calling it once — the second call detects the
existing rows and is a no-op — and duplicate inserts for an existing
(name, month, year) key are ignored at the storage layer (`INSERT OR
IGNORE` under UNIQUE(name, month, year)), so the uniqueness invariant of
the task table is preserved. -/
theorem ensureMonthlyTasks_idempotent :
    ∀ (s : Sqlite.DBState) (month year : Nat),
      Server.ensureMonthlyTasks (Server.ensureMonthlyTasks s month year) month year =
        Server.ensureMonthlyTasks s month year ∧
      (Sqlite.tasksKeyUnique s.tasks = true →
        Sqlite.tasksKeyUnique (Server.ensureMonthlyTasks s month year).tasks = true) := by
  intro s month year
  constructor
  · conv in Server.ensureMonthlyTasks (Server.ensureMonthlyTasks s month year) month year =>
      rw [Server.ensureMonthlyTasks]
    rw [if_neg (ensureMonthlyTasks_nonempty s month year)]
  · intro h
    unfold Server.ensureMonthlyTasks
    by_cases hc : (Sqlite.getCurrentMonthTasks s month year).length = 0
    · rw [if_pos hc]
      exact tasksKeyUnique_createMonthlyTasks _ s month year h
    · rw [if_neg hc]
      exact h

/-- Witness for C4 at a concrete store: starting from an empty task table,
one call creates January 2026's four rows, the second call changes nothing,
and the resulting table satisfies the key-uniqueness invariant. -/
theorem ensureMonthlyTasks_idempotent_witness :
    Server.ensureMonthlyTasks
        (Server.ensureMonthlyTasks (⟨[], [], [], [], 1⟩ : Sqlite.DBState) 1 2026) 1 2026 =
      Server.ensureMonthlyTasks (⟨[], [], [], [], 1⟩ : Sqlite.DBState) 1 2026 ∧
    Sqlite.tasksKeyUnique
        (Server.ensureMonthlyTasks (⟨[], [], [], [], 1⟩ : Sqlite.DBState) 1 2026).tasks = true :=
  ⟨(ensureMonthlyTasks_idempotent ⟨[], [], [], [], 1⟩ 1 2026).1,
   (ensureMonthlyTasks_idempotent ⟨[], [], [], [], 1⟩ 1 2026).2 (by decide)⟩

/-- Helper: `INSERT OR REPLACE` leaves exactly one row carrying the inserted
row's (user_id, month, year) key: conflicting rows are deleted first. -/
theorem filter_key_insertOrReplaceReport (rs : List Sqlite.Report) (r : Sqlite.Report) :
    ((Sqlite.insertOrReplaceReport rs r).filter
      fun x => x.user_id = r.user_id && x.month = r.month && x.year = r.year) = [r] := by
  unfold Sqlite.insertOrReplaceReport
  rw [List.filter_append]
  have h1 : ((rs.filter fun x =>
      !(x.user_id = r.user_id && x.month = r.month && x.year = r.year)).filter
      fun x => x.user_id = r.user_id && x.month = r.month && x.year = r.year) = [] := by
    rw [List.filter_eq_nil_iff]
    intro a ha hkey
    have := (List.mem_filter.mp ha).2
    rw [hkey] at this
    exact absurd this (by decide)
  rw [h1]
  simp

/-- Helper: after `generateMonthlyReport`, the report table holds exactly one
row keyed (userId, month, year), namely the returned report. -/
theorem generateMonthlyReport_filter_key (s : Sqlite.DBState) (uid : Nat)
    (uname : String) (m y now : Nat) :
    ((Sqlite.generateMonthlyReport s uid uname m y now).2.monthly_reports.filter
      fun x => x.user_id = uid && x.month = m && x.year = y) =
      [(Sqlite.generateMonthlyReport s uid uname m y now).1] :=
  filter_key_insertOrReplaceReport s.monthly_reports
    (Sqlite.generateMonthlyReport s uid uname m y now).1

/-- C5 (amended): in the SQLite variant, regenerating a report with unchanged
task rows reproduces the same assigned count, completed count and completion
percentage, and `INSERT OR REPLACE` under UNIQUE(user_id, month, year)
replaces the prior row, leaving exactly one report for that key.  (The
JSON-file variant instead appends a fresh report row on every call, so
duplicates accumulate there — see the counterexample.) -/
theorem generateMonthlyReport_idempotent_replaces :
    ∀ (s : Sqlite.DBState) (uid : Nat) (uname : String) (m y n1 n2 : Nat),
      (Sqlite.generateMonthlyReport s uid uname m y n1).1.tasks_assigned =
        (Sqlite.generateMonthlyReport (Sqlite.generateMonthlyReport s uid uname m y n1).2
          uid uname m y n2).1.tasks_assigned ∧
      (Sqlite.generateMonthlyReport s uid uname m y n1).1.tasks_completed =
        (Sqlite.generateMonthlyReport (Sqlite.generateMonthlyReport s uid uname m y n1).2
          uid uname m y n2).1.tasks_completed ∧
      (Sqlite.generateMonthlyReport s uid uname m y n1).1.completion_percentage =
        (Sqlite.generateMonthlyReport (Sqlite.generateMonthlyReport s uid uname m y n1).2
          uid uname m y n2).1.completion_percentage ∧
      ((Sqlite.generateMonthlyReport (Sqlite.generateMonthlyReport s uid uname m y n1).2
          uid uname m y n2).2.monthly_reports.filter
        fun x => x.user_id = uid && x.month = m && x.year = y).length = 1 := by
  intro s uid uname m y n1 n2
  refine ⟨rfl, rfl, rfl, ?_⟩
  rw [generateMonthlyReport_filter_key]
  rfl

/-- C5 counterexample: in the JSON-file variant, generating the reports for
January 2026 twice (with the single default user deepanshu and no tasks)
leaves two rows for the key (user 1, month 1, year 2026) in
`data.monthly_reports` — `generateAllMonthlyReports` pushes a fresh row on
every call and never replaces — refuting the claim that at most one
MonthlyReport per (user, month, year) ever exists. -/
theorem generateAllMonthlyReports_json_duplicates_cex :
    ((JsonDB.generateAllMonthlyReports [⟨1, "deepanshu"⟩] []
        (JsonDB.generateAllMonthlyReports [⟨1, "deepanshu"⟩] [] [] 1 2026 5).2
        1 2026 6).2.filter
      fun r => r.user_id = 1 && r.month = 1 && r.year = 2026).length = 2 := rfl

/-- Helper: the rounded percentage agrees with the claim's formula
round(100 × completed / assigned) and lies within 0..100. -/
theorem round_percentage_bounds (c a : Nat) (hc : c ≤ a) :
    round (((c : ℚ)) / a * 100) = round ((100 * (c : ℚ)) / a) ∧
    0 ≤ round (((c : ℚ)) / a * 100) ∧ round (((c : ℚ)) / a * 100) ≤ 100 := by
  have harr : ((c : ℚ)) / a * 100 = (100 * (c : ℚ)) / a := by ring
  refine ⟨by rw [harr], ?_, ?_⟩
  · rw [round_eq]
    apply Int.le_floor.mpr
    have h0 : (0 : ℚ) ≤ (c : ℚ) / a * 100 := by positivity
    push_cast
    linarith
  · rcases Nat.eq_zero_or_pos a with ha | ha
    · subst ha
      simp
    · have hle : ((c : ℚ)) / a * 100 ≤ 100 := by
        have hca : (c : ℚ) ≤ (a : ℚ) := by exact_mod_cast hc
        have hap : (0 : ℚ) < (a : ℚ) := by exact_mod_cast ha
        rw [div_mul_eq_mul_div, div_le_iff₀ hap]
        linarith
      rw [round_eq]
      have : ⌊((c : ℚ)) / a * 100 + 1 / 2⌋ < 101 := by
        apply Int.floor_lt.mpr
        push_cast
        linarith
      omega

/-- C6 (amended): in the SQLite variant, every generated report with
assigned > 0 stores completion_percentage = round(100 × completed /
assigned), an integer in 0..100; in particular 3 assigned / 2 completed
gives 67.  (The JSON-file variant stores the unrounded rate instead — see
the counterexample.) -/
theorem completion_percentage_rounded :
    (∀ (s : Sqlite.DBState) (uid : Nat) (uname : String) (m y now : Nat),
      0 < (Sqlite.generateMonthlyReport s uid uname m y now).1.tasks_assigned →
        (Sqlite.generateMonthlyReport s uid uname m y now).1.completion_percentage =
          round ((100 * ((Sqlite.generateMonthlyReport s uid uname m y now).1.tasks_completed : ℚ)) /
            ((Sqlite.generateMonthlyReport s uid uname m y now).1.tasks_assigned : ℚ)) ∧
        0 ≤ (Sqlite.generateMonthlyReport s uid uname m y now).1.completion_percentage ∧
        (Sqlite.generateMonthlyReport s uid uname m y now).1.completion_percentage ≤ 100) ∧
    (Sqlite.generateMonthlyReport
        (⟨[], [⟨1, "Kitchen Cleaning", "deepanshu", 1, 2026, true, some 3⟩,
               ⟨2, "Bathroom Cleaning", "deepanshu", 1, 2026, true, some 4⟩,
               ⟨3, "Hall Sweeping", "deepanshu", 1, 2026, false, none⟩], [], [], 4⟩ :
          Sqlite.DBState) 1 "deepanshu" 1 2026 9).1.tasks_assigned = 3 ∧
    (Sqlite.generateMonthlyReport
        (⟨[], [⟨1, "Kitchen Cleaning", "deepanshu", 1, 2026, true, some 3⟩,
               ⟨2, "Bathroom Cleaning", "deepanshu", 1, 2026, true, some 4⟩,
               ⟨3, "Hall Sweeping", "deepanshu", 1, 2026, false, none⟩], [], [], 4⟩ :
          Sqlite.DBState) 1 "deepanshu" 1 2026 9).1.tasks_completed = 2 ∧
    (Sqlite.generateMonthlyReport
        (⟨[], [⟨1, "Kitchen Cleaning", "deepanshu", 1, 2026, true, some 3⟩,
               ⟨2, "Bathroom Cleaning", "deepanshu", 1, 2026, true, some 4⟩,
               ⟨3, "Hall Sweeping", "deepanshu", 1, 2026, false, none⟩], [], [], 4⟩ :
          Sqlite.DBState) 1 "deepanshu" 1 2026 9).1.completion_percentage = 67 := by
  refine ⟨?_, rfl, rfl, ?_⟩
  · intro s uid uname m y now h
    have hc : (Sqlite.generateMonthlyReport s uid uname m y now).1.tasks_completed ≤
        (Sqlite.generateMonthlyReport s uid uname m y now).1.tasks_assigned :=
      List.length_filter_le _ _
    have hb := round_percentage_bounds
      (Sqlite.generateMonthlyReport s uid uname m y now).1.tasks_completed
      (Sqlite.generateMonthlyReport s uid uname m y now).1.tasks_assigned hc
    have hif : (Sqlite.generateMonthlyReport s uid uname m y now).1.completion_percentage =
        if 0 < (Sqlite.generateMonthlyReport s uid uname m y now).1.tasks_assigned then
          round (((Sqlite.generateMonthlyReport s uid uname m y now).1.tasks_completed : ℚ) /
            ((Sqlite.generateMonthlyReport s uid uname m y now).1.tasks_assigned : ℚ) * 100)
        else 0 := rfl
    rw [hif, if_pos h]
    exact ⟨hb.1, hb.2.1, hb.2.2⟩
  · have h2 : (Sqlite.generateMonthlyReport
        (⟨[], [⟨1, "Kitchen Cleaning", "deepanshu", 1, 2026, true, some 3⟩,
               ⟨2, "Bathroom Cleaning", "deepanshu", 1, 2026, true, some 4⟩,
               ⟨3, "Hall Sweeping", "deepanshu", 1, 2026, false, none⟩], [], [], 4⟩ :
          Sqlite.DBState) 1 "deepanshu" 1 2026 9).1.completion_percentage =
        round ((((2 : ℕ) : ℚ)) / (((3 : ℕ) : ℚ)) * 100) := rfl
    rw [h2]
    push_cast
    norm_num [round_eq]

/-- Witness for C6's amended theorem at the 3-assigned / 2-completed store. -/
theorem completion_percentage_rounded_witness :
    0 < (Sqlite.generateMonthlyReport
        (⟨[], [⟨1, "Kitchen Cleaning", "deepanshu", 1, 2026, true, some 3⟩,
               ⟨2, "Bathroom Cleaning", "deepanshu", 1, 2026, true, some 4⟩,
               ⟨3, "Hall Sweeping", "deepanshu", 1, 2026, false, none⟩], [], [], 4⟩ :
          Sqlite.DBState) 1 "deepanshu" 1 2026 9).1.tasks_assigned ∧
    ((Sqlite.generateMonthlyReport
        (⟨[], [⟨1, "Kitchen Cleaning", "deepanshu", 1, 2026, true, some 3⟩,
               ⟨2, "Bathroom Cleaning", "deepanshu", 1, 2026, true, some 4⟩,
               ⟨3, "Hall Sweeping", "deepanshu", 1, 2026, false, none⟩], [], [], 4⟩ :
          Sqlite.DBState) 1 "deepanshu" 1 2026 9).1.completion_percentage =
      round ((100 * ((Sqlite.generateMonthlyReport
        (⟨[], [⟨1, "Kitchen Cleaning", "deepanshu", 1, 2026, true, some 3⟩,
               ⟨2, "Bathroom Cleaning", "deepanshu", 1, 2026, true, some 4⟩,
               ⟨3, "Hall Sweeping", "deepanshu", 1, 2026, false, none⟩], [], [], 4⟩ :
          Sqlite.DBState) 1 "deepanshu" 1 2026 9).1.tasks_completed : ℚ)) /
        ((Sqlite.generateMonthlyReport
        (⟨[], [⟨1, "Kitchen Cleaning", "deepanshu", 1, 2026, true, some 3⟩,
               ⟨2, "Bathroom Cleaning", "deepanshu", 1, 2026, true, some 4⟩,
               ⟨3, "Hall Sweeping", "deepanshu", 1, 2026, false, none⟩], [], [], 4⟩ :
          Sqlite.DBState) 1 "deepanshu" 1 2026 9).1.tasks_assigned : ℚ)) ∧
      0 ≤ (Sqlite.generateMonthlyReport
        (⟨[], [⟨1, "Kitchen Cleaning", "deepanshu", 1, 2026, true, some 3⟩,
               ⟨2, "Bathroom Cleaning", "deepanshu", 1, 2026, true, some 4⟩,
               ⟨3, "Hall Sweeping", "deepanshu", 1, 2026, false, none⟩], [], [], 4⟩ :
          Sqlite.DBState) 1 "deepanshu" 1 2026 9).1.completion_percentage ∧
      (Sqlite.generateMonthlyReport
        (⟨[], [⟨1, "Kitchen Cleaning", "deepanshu", 1, 2026, true, some 3⟩,
               ⟨2, "Bathroom Cleaning", "deepanshu", 1, 2026, true, some 4⟩,
               ⟨3, "Hall Sweeping", "deepanshu", 1, 2026, false, none⟩], [], [], 4⟩ :
          Sqlite.DBState) 1 "deepanshu" 1 2026 9).1.completion_percentage ≤ 100) :=
  ⟨by decide,
   completion_percentage_rounded.1
     ⟨[], [⟨1, "Kitchen Cleaning", "deepanshu", 1, 2026, true, some 3⟩,
           ⟨2, "Bathroom Cleaning", "deepanshu", 1, 2026, true, some 4⟩,
           ⟨3, "Hall Sweeping", "deepanshu", 1, 2026, false, none⟩], [], [], 4⟩
     1 "deepanshu" 1 2026 9 (by decide)⟩

/-- C6 counterexample: the JSON-file variant's `generateAllMonthlyReports`
stores the unrounded rate: for a user with 3 assigned tasks of which 2 are
completed, the stored completion percentage is 200/3 = 66.66…, not the
integer round(100 × 2 / 3) = 67 required by the claim. -/
theorem completion_percentage_json_unrounded_cex :
    ((JsonDB.generateAllMonthlyReports [⟨1, "deepanshu"⟩]
        [⟨1, "Kitchen Cleaning", "deepanshu", 1, 2026, "completed", some 5⟩,
         ⟨2, "Bathroom Cleaning", "deepanshu", 1, 2026, "completed", some 6⟩,
         ⟨3, "Hall Sweeping", "deepanshu", 1, 2026, "pending", none⟩]
        [] 1 2026 9).1.map fun r => r.completion_percentage) = [(200 : ℚ) / 3] ∧
    (200 : ℚ) / 3 ≠ 67 := by
  constructor
  · have h : ((JsonDB.generateAllMonthlyReports [⟨1, "deepanshu"⟩]
        [⟨1, "Kitchen Cleaning", "deepanshu", 1, 2026, "completed", some 5⟩,
         ⟨2, "Bathroom Cleaning", "deepanshu", 1, 2026, "completed", some 6⟩,
         ⟨3, "Hall Sweeping", "deepanshu", 1, 2026, "pending", none⟩]
        [] 1 2026 9).1.map fun r => r.completion_percentage) =
      [((((2 : ℕ) : ℚ)) / (((3 : ℕ) : ℚ))) * 100] := rfl
    rw [h]
    norm_num
  · intro h
    norm_num at h

/-- C7: for a user with zero assigned tasks in a period, the two variants
store divergent completion-percentage defaults: the SQLite variant's
`generateMonthlyReport` yields 0 while the JSON-file variant's
`generateAllMonthlyReports` yields 100 for the same (empty) assignment
state. -/
theorem zero_assigned_default_divergence :
    ∀ (s : Sqlite.DBState) (uid : Nat) (uname : String) (ju : JsonDB.User)
      (jtasks : List JsonDB.Task) (m y now jnow : Nat),
      (s.tasks.filter fun t =>
        t.assigned_to = uname && t.month = m && t.year = y) = [] →
      (jtasks.filter fun t =>
        t.assigned_to = ju.username && t.month = m && t.year = y) = [] →
      (Sqlite.generateMonthlyReport s uid uname m y now).1.completion_percentage = 0 ∧
      ((JsonDB.generateAllMonthlyReports [ju] jtasks [] m y jnow).1.map
        fun r => r.completion_percentage) = [(100 : ℚ)] ∧
      (0 : ℚ) ≠ 100 := by
  intro s uid uname ju jtasks m y now jnow hs hj
  refine ⟨?_, ?_, by norm_num⟩
  · have ha : (Sqlite.generateMonthlyReport s uid uname m y now).1.tasks_assigned = 0 := by
      show (s.tasks.filter fun t =>
        t.assigned_to = uname && t.month = m && t.year = y).length = 0
      rw [hs]
      rfl
    have hif : (Sqlite.generateMonthlyReport s uid uname m y now).1.completion_percentage =
        if 0 < (Sqlite.generateMonthlyReport s uid uname m y now).1.tasks_assigned then
          round (((Sqlite.generateMonthlyReport s uid uname m y now).1.tasks_completed : ℚ) /
            ((Sqlite.generateMonthlyReport s uid uname m y now).1.tasks_assigned : ℚ) * 100)
        else 0 := rfl
    rw [hif, ha]
    norm_num
  · simp [JsonDB.generateAllMonthlyReports, hj]

/-- Witness for C7 at empty stores. -/
theorem zero_assigned_default_divergence_witness :
    ((⟨[], [], [], [], 1⟩ : Sqlite.DBState).tasks.filter fun t =>
        t.assigned_to = "sonu" && t.month = 1 && t.year = 2026) = [] ∧
    ((([] : List JsonDB.Task)).filter fun t =>
        t.assigned_to = (⟨2, "sonu"⟩ : JsonDB.User).username && t.month = 1 && t.year = 2026) = [] ∧
    ((Sqlite.generateMonthlyReport (⟨[], [], [], [], 1⟩ : Sqlite.DBState)
        2 "sonu" 1 2026 0).1.completion_percentage = 0 ∧
      ((JsonDB.generateAllMonthlyReports [⟨2, "sonu"⟩] [] [] 1 2026 0).1.map
        fun r => r.completion_percentage) = [(100 : ℚ)] ∧
      (0 : ℚ) ≠ 100) :=
  ⟨rfl, rfl,
   zero_assigned_default_divergence ⟨[], [], [], [], 1⟩ 2 "sonu" ⟨2, "sonu"⟩ [] 1 2026 0 0
     rfl rfl⟩

/-- Helper: the report batch loop returns, in order, one report per user the
storage backend does not fail on, skipping the failed ones. -/
theorem generateAllMonthlyReportsGo_map (err : Sqlite.UserRow → Option String)
    (m y now : Nat) :
    ∀ (us : List Sqlite.UserRow) (s : Sqlite.DBState),
      ((Sqlite.generateAllMonthlyReportsGo err m y now s us).1.map
        fun r => (r.user_id, r.username)) =
      ((us.filter fun u => (err u).isNone).map fun u => (u.id, u.username)) := by
  intro us
  induction us with
  | nil => intro s; rfl
  | cons u rest ih =>
      intro s
      simp only [Sqlite.generateAllMonthlyReportsGo]
      cases herr : err u with
      | some e => simp [herr, ih]
      | none => simp [herr, ih, Sqlite.generateMonthlyReport]

/-- C8: `generateAllMonthlyReports` (SQLite variant) attempts a report for
every known user; a failure on one user is caught and skipped rather than
aborting the batch, and the returned sequence contains the reports of
exactly the users whose generation succeeded, in roster order.  With no
failures, every known user gets a report. -/
theorem generateAllMonthlyReports_skips_failures :
    ∀ (err : Sqlite.UserRow → Option String) (s : Sqlite.DBState) (m y now : Nat),
      ((Sqlite.generateAllMonthlyReportsWith err s m y now).1.map
        fun r => (r.user_id, r.username)) =
        ((s.users.filter fun u => (err u).isNone).map fun u => (u.id, u.username)) ∧
      ((Sqlite.generateAllMonthlyReportsWith (fun _ => none) s m y now).1.map
        fun r => (r.user_id, r.username)) =
        (s.users.map fun u => (u.id, u.username)) := by
  intro err s m y now
  constructor
  · exact generateAllMonthlyReportsGo_map err m y now s.users s
  · simp only [Sqlite.generateAllMonthlyReportsWith]
    rw [generateAllMonthlyReportsGo_map (fun _ => none) m y now s.users s]
    simp

/-- Helper: grouping a row for a username absent from the accumulated map
appends a fresh entry (with the task when the row carries one). -/
theorem pushRow_new (acc : List Sqlite.UserStatus) (uname : String)
    (ti : Option (String × Bool × Option Nat))
    (hne : ∀ e ∈ acc, e.username ≠ uname) :
    Sqlite.pushRow acc (uname, ti) =
      acc ++ [(⟨uname, ti.toList⟩ : Sqlite.UserStatus)] := by
  unfold Sqlite.pushRow
  have hany : (acc.any fun e => e.username = (uname, ti).1) = false := by
    rw [List.any_eq_false]
    intro e he
    simp only [decide_eq_true_eq]
    exact hne e he
  rw [if_neg (by rw [hany]; exact Bool.false_ne_true)]
  cases ti with
  | some x => rfl
  | none => rfl

/-- Helper: grouping a task row for the username held by the last entry of
the accumulated map pushes the task onto that entry and touches no other. -/
theorem pushRow_existing (acc : List Sqlite.UserStatus) (uname : String)
    (ti : String × Bool × Option Nat) (pre : List (String × Bool × Option Nat))
    (hne : ∀ e ∈ acc, e.username ≠ uname) :
    Sqlite.pushRow (acc ++ [⟨uname, pre⟩]) (uname, some ti) =
      acc ++ [⟨uname, pre ++ [ti]⟩] := by
  unfold Sqlite.pushRow
  have hany : ((acc ++ [(⟨uname, pre⟩ : Sqlite.UserStatus)]).any
      fun e => e.username = (uname, some ti).1) = true := by
    rw [List.any_eq_true]
    exact ⟨⟨uname, pre⟩, List.mem_append_right _ (List.mem_singleton.mpr rfl), by simp⟩
  rw [if_pos hany]
  show ((acc ++ [(⟨uname, pre⟩ : Sqlite.UserStatus)]).map fun e =>
      if e.username = uname then { e with tasks := e.tasks ++ [ti] } else e) = _
  rw [List.map_append]
  congr 1
  · have : ∀ e ∈ acc, (if e.username = uname then
        ({ e with tasks := e.tasks ++ [ti] } : Sqlite.UserStatus) else e) = id e := by
      intro e he
      rw [if_neg (hne e he)]
      rfl
    rw [List.map_congr_left this, List.map_id]
  · show [if uname = uname then _ else _] = _
    rw [if_pos rfl]

/-- Helper: folding the grouping step over the rows a single user's
contiguous task rows produce, starting from a map ending in that user's
entry, appends the tasks in order to that entry. -/
theorem foldl_pushRow_tasks (uname : String) :
    ∀ (tis : List (String × Bool × Option Nat)) (acc : List Sqlite.UserStatus)
      (cur : List (String × Bool × Option Nat)),
      (∀ e ∈ acc, e.username ≠ uname) →
      ((tis.map fun ti => (uname, some ti)).foldl Sqlite.pushRow
        (acc ++ [⟨uname, cur⟩])) = acc ++ [⟨uname, cur ++ tis⟩] := by
  intro tis
  induction tis with
  | nil => intro acc cur hne; simp
  | cons ti rest ih =>
      intro acc cur hne
      simp only [List.map_cons, List.foldl_cons]
      rw [pushRow_existing acc uname ti cur hne, ih acc (cur ++ [ti]) hne]
      simp

/-- Helper: folding the grouping step over the LEFT-JOIN rows of one user
with at least one matching task — one row per task — appends exactly that
user's entry, tasks in order. -/
theorem foldl_pushRow_block_cons (uname : String) (t : Sqlite.Task)
    (rest : List Sqlite.Task) (acc : List Sqlite.UserStatus)
    (hne : ∀ e ∈ acc, e.username ≠ uname) :
    (((t :: rest).map fun t =>
        (uname, some (t.name, t.completed, t.completed_at))).foldl Sqlite.pushRow acc) =
      acc ++ [(⟨uname, (t :: rest).map fun t =>
        (t.name, t.completed, t.completed_at)⟩ : Sqlite.UserStatus)] := by
  simp only [List.map_cons, List.foldl_cons]
  rw [pushRow_new acc uname (some (t.name, t.completed, t.completed_at)) hne]
  have hmm : (rest.map fun t => (uname, some (t.name, t.completed, t.completed_at))) =
      ((rest.map fun t => (t.name, t.completed, t.completed_at)).map
        fun ti => (uname, some ti)) := by
    rw [List.map_map]
    rfl
  rw [hmm]
  rw [show ((acc ++ [(⟨uname, (some (t.name, t.completed, t.completed_at)).toList⟩ :
      Sqlite.UserStatus)]) = acc ++ [(⟨uname, [(t.name, t.completed, t.completed_at)]⟩ :
      Sqlite.UserStatus)]) from rfl]
  rw [foldl_pushRow_tasks uname _ acc _ hne]
  simp

/-- Helper: folding the grouping step over one user's LEFT-JOIN rows
appends exactly that user's entry, carrying the user's (month, year)
tasks (empty when the user has none). -/
theorem foldl_pushRow_userBlock (tasks : List Sqlite.Task) (m y : Nat)
    (u : Sqlite.UserRow) (acc : List Sqlite.UserStatus)
    (hne : ∀ e ∈ acc, e.username ≠ u.username) :
    ((Sqlite.userBlock tasks m y u).foldl Sqlite.pushRow acc) =
      acc ++ [(⟨u.username, (tasks.filter fun t =>
          t.assigned_to = u.username && t.month = m && t.year = y).map
        fun t => (t.name, t.completed, t.completed_at)⟩ : Sqlite.UserStatus)] := by
  unfold Sqlite.userBlock
  cases hts : tasks.filter fun t =>
      t.assigned_to = u.username && t.month = m && t.year = y with
  | nil =>
      simp only [List.map_nil]
      show Sqlite.pushRow acc (u.username, none) =
        acc ++ [(⟨u.username, []⟩ : Sqlite.UserStatus)]
      rw [pushRow_new acc u.username none hne]
      rfl
  | cons t rest =>
      show (((t :: rest).map fun t =>
        (u.username, some (t.name, t.completed, t.completed_at))).foldl
          Sqlite.pushRow acc) = _
      rw [foldl_pushRow_block_cons u.username t rest acc hne]

/-- Helper: folding the grouping step over all users' LEFT-JOIN rows builds
one entry per user, in row order, each carrying exactly that user's
(month, year) tasks. -/
theorem foldl_pushRow_users (tasks : List Sqlite.Task) (m y : Nat) :
    ∀ (us : List Sqlite.UserRow) (acc : List Sqlite.UserStatus),
      (us.map fun u => u.username).Nodup →
      (∀ e ∈ acc, ∀ u ∈ us, e.username ≠ u.username) →
      ((us.flatMap (Sqlite.userBlock tasks m y)).foldl Sqlite.pushRow acc) =
        acc ++ us.map fun u =>
          (⟨u.username, (tasks.filter fun t =>
              t.assigned_to = u.username && t.month = m && t.year = y).map
            fun t => (t.name, t.completed, t.completed_at)⟩ : Sqlite.UserStatus) := by
  intro us
  induction us with
  | nil => intro acc _ _; simp
  | cons u rest ih =>
      intro acc hnd hdisj
      rw [List.flatMap_cons, List.foldl_append]
      rw [foldl_pushRow_userBlock tasks m y u acc
        (fun e he => hdisj e he u (List.mem_cons_self u rest))]
      have hnd' : (rest.map fun u => u.username).Nodup := (List.nodup_cons.mp hnd).2
      have hu_notin : u.username ∉ rest.map fun u => u.username := (List.nodup_cons.mp hnd).1
      rw [ih _ hnd' ?_]
      · simp
      · intro e he v hv
        rcases List.mem_append.mp he with he | he
        · exact hdisj e he v (List.mem_cons_of_mem u hv)
        · rw [List.mem_singleton.mp he]
          intro heq
          have heq' : u.username = v.username := heq
          exact hu_notin (heq' ▸ List.mem_map_of_mem (fun u => u.username) hv)

/-- C9: `getAllUsersStatus` returns exactly one entry per known user — users
with zero tasks that month included, with an empty task list — and each
entry's task list is exactly the (month, year) tasks assigned to that user,
each carrying its name, completed flag and completion timestamp.  (The rows
arrive sorted by username, so the entry order is a permutation of the
`users` table's order; usernames are unique by the table's constraint.) -/
theorem getAllUsersStatus_entries :
    ∀ (s : Sqlite.DBState) (m y : Nat),
      (s.users.map fun u => u.username).Nodup →
      (Sqlite.getAllUsersStatus s m y).Perm
        (s.users.map fun u =>
          (⟨u.username, (s.tasks.filter fun t =>
              t.assigned_to = u.username && t.month = m && t.year = y).map
            fun t => (t.name, t.completed, t.completed_at)⟩ : Sqlite.UserStatus)) := by
  intro s m y hnd
  unfold Sqlite.getAllUsersStatus Sqlite.statusRows
  have hperm : (s.users.mergeSort fun a b => a.username ≤ b.username).Perm s.users :=
    List.mergeSort_perm s.users _
  have hnd' : ((s.users.mergeSort fun a b => a.username ≤ b.username).map
      fun u => u.username).Nodup := ((hperm.map _).nodup_iff).mpr (by exact hnd)
  rw [foldl_pushRow_users s.tasks m y _ [] hnd' (by intro e he; exact absurd he (List.not_mem_nil e))]
  simpa using hperm.map _

/-- Witness for C9 at a concrete store: two users, one with a January 2026
task and one with none. -/
theorem getAllUsersStatus_entries_witness :
    (([⟨1, "deepanshu"⟩, ⟨2, "sonu"⟩] : List Sqlite.UserRow).map
      fun u => u.username).Nodup ∧
    (Sqlite.getAllUsersStatus
        (⟨[⟨1, "deepanshu"⟩, ⟨2, "sonu"⟩],
          [⟨1, "Kitchen Cleaning", "deepanshu", 1, 2026, true, some 8⟩], [], [], 2⟩ :
          Sqlite.DBState) 1 2026).Perm
      (([⟨1, "deepanshu"⟩, ⟨2, "sonu"⟩] : List Sqlite.UserRow).map fun u =>
        (⟨u.username,
          (([⟨1, "Kitchen Cleaning", "deepanshu", 1, 2026, true, some 8⟩] :
              List Sqlite.Task).filter fun t =>
            t.assigned_to = u.username && t.month = 1 && t.year = 2026).map
          fun t => (t.name, t.completed, t.completed_at)⟩ : Sqlite.UserStatus)) :=
  ⟨by decide,
   getAllUsersStatus_entries
     ⟨[⟨1, "deepanshu"⟩, ⟨2, "sonu"⟩],
      [⟨1, "Kitchen Cleaning", "deepanshu", 1, 2026, true, some 8⟩], [], [], 2⟩
     1 2026 (by decide)⟩
